import Mathlib

/-
  Verification of the Africure form-submission pipeline.

  Shallow embedding of the backend's validation / sanitization /
  persistence code (contact and career-application flows) together with
  proofs about the behaviour that the specification describes.

  Sources embedded below (paths relative to the repository root):
    - middleware validation module (contact rules, sanitizer, rate limit)
    - routes/careerRoutes.js (career rules, career sanitizer, multer gate)
    - controllers (contact and career, health check, positions)
    - services (ContactService, CareerService) and the config module
    - database/create_career_applications_table.sql (privileged insert)

  External-library calls (express-validator checks, supabase client,
  express-rate-limit counters) are modelled by executable Lean functions
  whose behaviour is stated in their doc comments; everything else is a
  direct translation of the JavaScript.
-/

set_option maxRecDepth 10000

namespace Africure

/-! ## JavaScript string primitives (ASCII model) -/

/-- Model of the JS `\s` character class restricted to the ASCII
whitespace characters that the embedded inputs can contain. -/
def isJsSpace (c : Char) : Bool :=
  c = ' ' || c = '\t' || c = '\n' || c = '\r' || c.toNat = 11 || c.toNat = 12

/-- ASCII letter, the `a-zA-Z` regex class. -/
def isAsciiLetter (c : Char) : Bool :=
  (97 ≤ c.toNat && c.toNat ≤ 122) || (65 ≤ c.toNat && c.toNat ≤ 90)

/-- ASCII digit, the `\d` / `0-9` regex class. -/
def isDigitCh (c : Char) : Bool :=
  48 ≤ c.toNat && c.toNat ≤ 57

/-- Regex word character `\w`, i.e. `[A-Za-z0-9_]`. -/
def isWordChar (c : Char) : Bool :=
  isAsciiLetter c || isDigitCh c || c = '_'

/-- Leading and trailing whitespace removal on a character list. -/
def trimChars (l : List Char) : List Char :=
  ((l.dropWhile isJsSpace).reverse.dropWhile isJsSpace).reverse

/-- Model of JS `String.prototype.trim`: strips leading and trailing
whitespace. -/
def jsTrim (s : String) : String :=
  String.mk (trimChars s.data)

/-- Model of JS `String.prototype.toLowerCase` (ASCII). -/
def jsToLower (s : String) : String := String.mk (s.data.map Char.toLower)

/-- Model of JS `String.prototype.toUpperCase` (ASCII). -/
def jsToUpper (s : String) : String := String.mk (s.data.map Char.toUpper)

/-- Model of JS `s.slice(-8)`: the last eight characters of `s`
(the whole string when it is shorter). -/
def jsSliceLast8 (s : String) : String :=
  String.mk (s.data.drop (s.data.length - 8))

/-- Model of JS `String(n).padStart(6, '0')` for a natural number. -/
def jsPadStart6 (n : Nat) : String :=
  let s := toString n
  String.mk (List.replicate (6 - s.length) '0') ++ s

/-- Case-insensitive character comparison used by `i`-flagged regexes. -/
def lowerEq (a b : Char) : Bool := a.toLower = b.toLower

/-- Case-insensitive prefix test: does `cs` start with `pat`? -/
def startsWithCI : List Char → List Char → Bool
  | [], _ => true
  | _ :: _, [] => false
  | p :: ps, c :: cs => lowerEq p c && startsWithCI ps cs

/-- Index of the first case-insensitive occurrence of `pat` in `cs`. -/
def findCI (pat : List Char) : List Char → Option Nat
  | [] => none
  | c :: cs =>
    if startsWithCI pat (c :: cs) then some 0
    else (findCI pat cs).map (· + 1)

/-! ## The sanitizer regex replacements

The JS sanitizers run `String.prototype.replace` with `g`- and
`i`-flagged regexes and the empty replacement string.  `scanStrip`
performs that left-to-right scan: `matchAt cs = some n` means the regex
matches a block of `n + 1` characters at the head of `cs`; the block is
deleted and the scan resumes after it (replacement text is never
rescanned, matching JS semantics). -/

def scanStripFuel (matchAt : List Char → Option Nat) :
    Nat → List Char → List Char
  | _, [] => []
  | 0, _ :: _ => []
  | fuel + 1, c :: rest =>
    match matchAt (c :: rest) with
    | some n => scanStripFuel matchAt fuel (rest.drop n)
    | none => c :: scanStripFuel matchAt fuel rest

/-- The scan always advances by at least one character, so the input
length bounds the number of steps and serves as fuel. -/
def scanStrip (matchAt : List Char → Option Nat) (cs : List Char) : List Char :=
  scanStripFuel matchAt cs.length cs

/-- Matcher for a case-insensitive literal pattern (`javascript:`). -/
def matchLiteralCI (pat : List Char) (cs : List Char) : Option Nat :=
  if pat ≠ [] && startsWithCI pat cs then some (pat.length - 1) else none

/-- Matcher for the tag-pair regexes
`/<script\b[^<]*(?:(?!<\/script>)<[^<]*)*<\/script>/gi` (and the same
shape for `iframe`): an opening `<tag` with a word boundary after it,
everything up to the first case-insensitive `</tag>`, inclusive. -/
def matchTagPair (tag : List Char) (cs : List Char) : Option Nat :=
  if startsWithCI ('<' :: tag) cs then
    let after := cs.drop (1 + tag.length)
    let boundary := match after.head? with
      | none => true
      | some c => !isWordChar c
    if boundary then
      let closePat := '<' :: '/' :: (tag ++ ['>'])
      match findCI closePat after with
      | some i => some (1 + tag.length + i + closePat.length - 1)
      | none => none
    else none
  else none

/-- Matcher for the inline-handler regex `/on\w+\s*=/gi`. -/
def matchOnHandler (cs : List Char) : Option Nat :=
  match cs with
  | c1 :: c2 :: rest =>
    if c1.toLower = 'o' && c2.toLower = 'n' then
      let w := rest.takeWhile isWordChar
      if w.isEmpty then none
      else
        let rest2 := rest.drop w.length
        let sp := rest2.takeWhile isJsSpace
        match rest2.drop sp.length with
        | '=' :: _ => some (2 + w.length + sp.length + 1 - 1)
        | _ => none
    else none
  | _ => none

/-- Contact-flow sanitizer `sanitizeInput` (middleware validation
module): strips `<script>…</script>`, `<iframe>…</iframe>`,
`javascript:` and `on<word>=` patterns, in that order. -/
def sanitizeContactField (s : String) : String :=
  String.mk (scanStrip matchOnHandler
    (scanStrip (matchLiteralCI "javascript:".data)
      (scanStrip (matchTagPair "iframe".data)
        (scanStrip (matchTagPair "script".data) s.data))))

/-- Career-flow sanitizer `sanitizeCareerInput` (routes/careerRoutes.js):
strips `<script>…</script>`, `javascript:` and `on<word>=` patterns, in
that order.  It has no iframe rule. -/
def sanitizeCareerField (s : String) : String :=
  String.mk (scanStrip matchOnHandler
    (scanStrip (matchLiteralCI "javascript:".data)
      (scanStrip (matchTagPair "script".data) s.data)))

/-! ## Regex character classes used by the validators -/

/-- Character count of a string (JS `String.prototype.length`, ASCII model). -/
def strLen (s : String) : Nat := s.data.length

/-- Emptiness test on the character list. -/
def strEmpty (s : String) : Bool := s.data.isEmpty

/-- The email regex `/^[^\s@]+@[^\s@]+\.[^\s@]+$/`
(config.validation.contact.email.pattern; the same shape also models
express-validator `isEmail` for the inputs the claims exercise): a
string matches iff it has exactly one `@`, no whitespace, a nonempty
local part, and after the `@` a dot with at least one character on each
side. -/
def emailShape (s : String) : Bool :=
  match s.data.splitOn '@' with
  | [a, t] =>
    !a.isEmpty && a.all (fun c => !isJsSpace c) &&
    t.all (fun c => !isJsSpace c) && ((t.drop 1).dropLast.contains '.')
  | _ => false

/-- Characters allowed by the route-level full-name regex
`/^[a-zA-Z\s\-\.\']+$/` (also `/^[a-zA-Z\s.'-]+$/` of the career route,
which is the same class). -/
def contactNameChar (c : Char) : Bool :=
  isAsciiLetter c || isJsSpace c || c = '-' || c = '.' || c.toNat = 39

/-- The route-level full-name regex: one or more allowed characters. -/
def contactNamePattern (s : String) : Bool :=
  !s.data.isEmpty && s.data.all contactNameChar

/-- The route-level contact-number regex `/^[\+]?[1-9][\d]{0,15}$/`. -/
def contactNumberPattern (s : String) : Bool :=
  match s.data with
  | [] => false
  | c :: rest =>
    let ds := if c = '+' then rest else c :: rest
    match ds with
    | [] => false
    | d :: tail =>
      (49 ≤ d.toNat && d.toNat ≤ 57) && tail.length ≤ 15 && tail.all isDigitCh

/-- Characters of the service-level phone regex class `[\d\s\-\(\)]`. -/
def servicePhoneChar (c : Char) : Bool :=
  isDigitCh c || isJsSpace c || c = '-' || c = '(' || c = ')'

/-- The service-level phone regex `/^[\+]?[\d\s\-\(\)]+$/`
(config.validation.contact.contact.pattern and
CareerService.validateApplicationData). -/
def servicePhonePattern (s : String) : Bool :=
  match s.data with
  | [] => false
  | c :: rest =>
    if c = '+' then !rest.isEmpty && rest.all servicePhoneChar
    else (c :: rest).all servicePhoneChar

/-- The config full-name regex `/^[a-zA-Z\s]+$/` (letters and spaces
only, config.validation.contact.fullName.pattern). -/
def configNamePattern (s : String) : Bool :=
  !s.data.isEmpty && s.data.all (fun c => isAsciiLetter c || isJsSpace c)

/-- HTML-entity escaping of one character, modelling the
express-validator `escape()` sanitizer: ampersand, angle brackets,
double and single quotes (code point 39), forward and back slashes, and
the backtick (code point 96). -/
def escChar (c : Char) : List Char :=
  if c = '&' then "&amp;".data
  else if c = '<' then "&lt;".data
  else if c = '>' then "&gt;".data
  else if c = '"' then "&quot;".data
  else if c.toNat = 39 then "&#x27;".data
  else if c = '/' then "&#x2F;".data
  else if c = '\\' then "&#x5C;".data
  else if c.toNat = 96 then "&#96;".data
  else [c]

/-- Model of the express-validator `escape()` sanitizer. -/
def jsEscape (s : String) : String := String.mk ((s.data.map escChar).flatten)

/-- Model of express-validator `normalizeEmail()` with default options:
the address is lower-cased (provider-specific rewrites such as gmail
dot removal are not modelled; no claim input involves them). -/
def normalizeEmailModel (s : String) : String := jsToLower s

/-- Model of express-validator `isEmail()`: accepts addresses of the
shape local@domain.tld, modelled by the same shape test as the config
email pattern. -/
def isEmailModel (s : String) : Bool := emailShape s

/-! ## Contact flow: validation chain, service validation, controller -/

/-- One entry of the express-validator error array as the contact and
career controllers serialize it (field and message; the offending value
is omitted from the model). -/
structure FieldError where
  field : String
  message : String
deriving DecidableEq, Repr

/-- Value a validator chain sees for a possibly missing field
(express-validator coerces a missing field to the empty string when a
validator runs on it). -/
def fieldValue (v : Option String) : String := v.getD ""

/-- Emit one field error when `failed` is true. -/
def condErr (failed : Bool) (f msg : String) : List FieldError :=
  if failed then [⟨f, msg⟩] else []

/-- Emit one plain error message when `failed` is true. -/
def condMsg (failed : Bool) (msg : String) : List String :=
  if failed then [msg] else []

/-- Body of a `POST /api/contact` request after JSON parsing; a missing
field is `none`. -/
structure ContactBody where
  fullName : Option String
  email : Option String
  contact : Option String
  message : Option String
deriving DecidableEq, Repr

/-- The `sanitizeInput` middleware applied to the contact body: every
present string field is rewritten by the contact sanitizer; missing
fields stay missing. -/
def sanitizeContactBody (b : ContactBody) : ContactBody :=
  { fullName := b.fullName.map sanitizeContactField,
    email := b.email.map sanitizeContactField,
    contact := b.contact.map sanitizeContactField,
    message := b.message.map sanitizeContactField }

/-- Errors of the `fullName` chain of `validateContactForm` (applied to
the trimmed value). -/
def contactFullNameErrors (v : String) : List FieldError :=
  condErr (strEmpty v) "fullName" "Full name is required" ++
  condErr (!(decide (2 ≤ strLen v) && decide (strLen v ≤ 255))) "fullName"
    "Full name must be between 2 and 255 characters" ++
  condErr (!contactNamePattern v) "fullName"
    "Full name can only contain letters, spaces, hyphens, dots, and apostrophes"

/-- Errors of the `email` chain of `validateContactForm` (the
max-length check runs after `normalizeEmail`). -/
def contactEmailErrors (v : String) : List FieldError :=
  condErr (strEmpty v) "email" "Email is required" ++
  condErr (!isEmailModel v) "email" "Please provide a valid email address" ++
  condErr (!decide (strLen (normalizeEmailModel v) ≤ 255)) "email"
    "Email must not exceed 255 characters"

/-- Errors of the `contact` chain of `validateContactForm`. -/
def contactNumberErrors (v : String) : List FieldError :=
  condErr (strEmpty v) "contact" "Contact number is required" ++
  condErr (!contactNumberPattern v) "contact"
    "Please provide a valid contact number (10-16 digits)" ++
  condErr (!(decide (10 ≤ strLen v) && decide (strLen v ≤ 16))) "contact"
    "Contact number must be between 10 and 16 digits"

/-- Errors of the `message` chain of `validateContactForm`. -/
def contactMessageErrors (v : String) : List FieldError :=
  condErr (strEmpty v) "message" "Message is required" ++
  condErr (!(decide (10 ≤ strLen v) && decide (strLen v ≤ 2000))) "message"
    "Message must be between 10 and 2000 characters"

/-- The contact validation chain `validateContactForm` (middleware
validation module): every validator of every field runs (no bail),
accumulating one error per failed check; the sanitizers (`trim`,
`normalizeEmail`, `escape`) rewrite the request body for the handlers
that follow. -/
def runContactValidation (b : ContactBody) : List FieldError × ContactBody :=
  let fn := jsTrim (fieldValue b.fullName)
  let em := jsTrim (fieldValue b.email)
  let ct := jsTrim (fieldValue b.contact)
  let ms := jsTrim (fieldValue b.message)
  (contactFullNameErrors fn ++ contactEmailErrors em ++
     contactNumberErrors ct ++ contactMessageErrors ms,
   { fullName := some fn, email := some (normalizeEmailModel em),
     contact := some ct, message := some (jsEscape ms) })

/-- JS truthiness of a possibly missing string field: falsy iff
missing or the empty string. -/
def jsFalsyStr : Option String → Bool
  | none => true
  | some s => s.data.isEmpty

/-- ContactService.validateContactData with config.validation.contact:
name 2-50 characters of letters and spaces, email shape, contact at
least 10 characters matching the service phone pattern, message 10-1000
characters.  Errors accumulate in source order. -/
def validateContactData (b : ContactBody) : List String :=
  condMsg (jsFalsyStr b.fullName ||
      decide (strLen (jsTrim (fieldValue b.fullName)) < 2))
    "Full name must be at least 2 characters long" ++
  condMsg (!jsFalsyStr b.fullName && decide (50 < strLen (fieldValue b.fullName)))
    "Full name must not exceed 50 characters" ++
  condMsg (!jsFalsyStr b.fullName && !configNamePattern (fieldValue b.fullName))
    "Full name can only contain letters and spaces" ++
  condMsg (jsFalsyStr b.email || !emailShape (fieldValue b.email))
    "Please provide a valid email address" ++
  condMsg (jsFalsyStr b.contact || decide (strLen (fieldValue b.contact) < 10))
    "Contact number must be at least 10 digits long" ++
  condMsg (!jsFalsyStr b.contact && !servicePhonePattern (fieldValue b.contact))
    "Please provide a valid contact number" ++
  condMsg (jsFalsyStr b.message ||
      decide (strLen (jsTrim (fieldValue b.message)) < 10))
    "Message must be at least 10 characters long" ++
  condMsg (!jsFalsyStr b.message && decide (1000 < strLen (fieldValue b.message)))
    "Message must not exceed 1000 characters"

/-- Row payload ContactService.createContact sends to the Contact_Us
table. -/
structure ContactInsert where
  Full_Name : String
  Email_id : String
  Contact : String
  Enter_Message : String
deriving DecidableEq, Repr

/-- Row returned by the backend for a successful contact insert (the
controller slices the id as a string). -/
structure ContactDbRow where
  id : String
  created_at : Option String
deriving DecidableEq, Repr

/-- Outcome of one remote database or storage call. -/
inductive DbResult (α : Type) where
  | ok (value : α)
  | err (msg : String)
deriving DecidableEq, Repr

/-- Success payload of the 201 contact response. -/
structure ContactSuccessData where
  id : String
  submittedAt : String
  reference : String
deriving DecidableEq, Repr

/-- Observable outcome of one `POST /api/contact` request: HTTP status,
envelope success flag, the two error shapes the controller can emit,
the success data, and the row written to the table (`none` when no row
was persisted). -/
structure ContactOutcome where
  status : Nat
  success : Bool
  fieldErrors : List FieldError
  serviceErrors : List String
  data : Option ContactSuccessData
  inserted : Option ContactInsert
deriving DecidableEq, Repr

/-- Insert payload built by ContactService.createContact from the
post-middleware body: every field trimmed, the email lower-cased and
trimmed. -/
def mkContactInsert (b : ContactBody) : ContactInsert :=
  { Full_Name := jsTrim (fieldValue b.fullName),
    Email_id := jsTrim (jsToLower (fieldValue b.email)),
    Contact := jsTrim (fieldValue b.contact),
    Enter_Message := jsTrim (fieldValue b.message) }

/-- ContactController.createContact composed with the route middleware
(sanitize → validate → handle): the `sanitizeInput` middleware rewrites
the body first; then express-validator errors give 400 with field
entries; service-validation errors give 400 with message strings;
otherwise the insert runs, a success gives 201 with id, submittedAt and
the derived reference, and an insert error gives 503 (the rethrown
message always contains "Database"). -/
def contactPipeline (b : ContactBody) (db : DbResult ContactDbRow)
    (now : String) : ContactOutcome :=
  let v := runContactValidation (sanitizeContactBody b)
  if v.1 ≠ [] then
    { status := 400, success := false, fieldErrors := v.1,
      serviceErrors := [], data := none, inserted := none }
  else
    let b' := v.2
    let svc := validateContactData b'
    if svc ≠ [] then
      { status := 400, success := false, fieldErrors := [],
        serviceErrors := svc, data := none, inserted := none }
    else
      match db with
      | .ok row =>
        { status := 201, success := true, fieldErrors := [], serviceErrors := [],
          data := some { id := row.id,
                         submittedAt := row.created_at.getD now,
                         reference := "AF-" ++ jsToUpper (jsSliceLast8 row.id) },
          inserted := some (mkContactInsert b') }
      | .err _ =>
        { status := 503, success := false, fieldErrors := [],
          serviceErrors := [], data := none, inserted := none }

/-! ## Career flow: multer gate, validation chain, service, controller -/

/-- Exact (case-sensitive) prefix test. -/
def startsWithEq : List Char → List Char → Bool
  | [], _ => true
  | _ :: _, [] => false
  | p :: ps, c :: cs => p = c && startsWithEq ps cs

/-- Exact substring occurrence test. -/
def containsAt (pat : List Char) : List Char → Bool
  | [] => startsWithEq pat []
  | c :: cs => startsWithEq pat (c :: cs) || containsAt pat cs

/-- Model of JS `String.prototype.includes`. -/
def hasSubstr (s pat : String) : Bool := containsAt pat.data s.data

/-- Body of a `POST /api/careers/apply` multipart request; every value is
a string (multipart fields parse as strings) and a missing field is
`none`. -/
structure CareerBody where
  fullName : Option String
  email : Option String
  phone : Option String
  location : Option String
  position : Option String
  experience : Option String
  qualification : Option String
  coverLetter : Option String
  consent : Option String
deriving DecidableEq, Repr

/-- The `sanitizeCareerInput` middleware applied to the career body:
every present string field is rewritten by the career sanitizer;
missing fields stay missing. -/
def sanitizeCareerBody (b : CareerBody) : CareerBody :=
  { fullName := b.fullName.map sanitizeCareerField,
    email := b.email.map sanitizeCareerField,
    phone := b.phone.map sanitizeCareerField,
    location := b.location.map sanitizeCareerField,
    position := b.position.map sanitizeCareerField,
    experience := b.experience.map sanitizeCareerField,
    qualification := b.qualification.map sanitizeCareerField,
    coverLetter := b.coverLetter.map sanitizeCareerField,
    consent := b.consent.map sanitizeCareerField }

/-- The position codes accepted by the career validator's `isIn` rule
(routes/careerRoutes.js). -/
def validPositions : List String :=
  ["supply-chain", "executive-ceo", "executive-directors", "manager-ehs",
   "manager-hrd", "manager-accounts", "manager-regulatory", "manager-procurement",
   "trainee-procurement", "business-development", "manager-engineering",
   "deputy-qa", "other"]

/-- The experience-range codes accepted by the career validator. -/
def validExperience : List String := ["0-1", "2-3", "4-5", "6-7", "8-10", "10+"]

/-- The qualification codes accepted by the career validator. -/
def validQualifications : List String :=
  ["bpharm", "mpharm", "mba", "bsc", "msc", "bcom", "mcom", "ca",
   "engineering", "other"]

/-- The position list served by `GET /api/careers/positions`
(CareerController.getAvailablePositions), as value-label pairs. -/
def availablePositions : List (String × String) :=
  [("supply-chain", "Supply Chain Dy. Managers"),
   ("executive-ceo", "Executive Assistant to CEO"),
   ("executive-directors", "Executive Assistant to Directors"),
   ("manager-ehs", "Manager - EHS"),
   ("manager-hrd", "Manager HRD"),
   ("manager-accounts", "Manager Accounts"),
   ("manager-regulatory", "Manager Regulatory Affairs"),
   ("manager-procurement", "Manager – API Procurement"),
   ("trainee-procurement", "Trainee- Procurement"),
   ("business-development", "Business Development Manager"),
   ("manager-engineering", "Manager-Engineering"),
   ("deputy-qa", "Deputy Manager-QA Validation"),
   ("other", "Other")]

/-- Errors of the `fullName` chain of `validateCareerApplication`. -/
def careerFullNameErrors (v : String) : List FieldError :=
  condErr (strEmpty v) "fullName" "Full name is required" ++
  condErr (!(decide (2 ≤ strLen v) && decide (strLen v ≤ 100))) "fullName"
    "Full name must be between 2 and 100 characters" ++
  condErr (!contactNamePattern v) "fullName"
    "Full name can only contain letters, spaces, dots, hyphens, and apostrophes"

/-- Errors of the `email` chain of `validateCareerApplication`. -/
def careerEmailErrors (v : String) : List FieldError :=
  condErr (strEmpty v) "email" "Email is required" ++
  condErr (!isEmailModel v) "email" "Please provide a valid email address"

/-- Errors of the `phone` chain of `validateCareerApplication`. -/
def careerPhoneErrors (v : String) : List FieldError :=
  condErr (strEmpty v) "phone" "Phone number is required" ++
  condErr (!(decide (10 ≤ strLen v) && decide (strLen v ≤ 15))) "phone"
    "Phone number must be between 10 and 15 digits" ++
  condErr (!servicePhonePattern v) "phone" "Please provide a valid phone number"

/-- Errors of the `location` chain of `validateCareerApplication`. -/
def careerLocationErrors (v : String) : List FieldError :=
  condErr (strEmpty v) "location" "Current location is required" ++
  condErr (!(decide (2 ≤ strLen v) && decide (strLen v ≤ 100))) "location"
    "Location must be between 2 and 100 characters"

/-- Errors of the `position` chain of `validateCareerApplication`
(no trim sanitizer; the raw value is tested). -/
def careerPositionErrors (v : String) : List FieldError :=
  condErr (strEmpty v) "position" "Position is required" ++
  condErr (!validPositions.contains v) "position" "Please select a valid position"

/-- Errors of the `experience` chain of `validateCareerApplication`. -/
def careerExperienceErrors (v : String) : List FieldError :=
  condErr (strEmpty v) "experience" "Experience is required" ++
  condErr (!validExperience.contains v) "experience"
    "Please select a valid experience range"

/-- Errors of the `qualification` chain of `validateCareerApplication`. -/
def careerQualificationErrors (v : String) : List FieldError :=
  condErr (strEmpty v) "qualification" "Qualification is required" ++
  condErr (!validQualifications.contains v) "qualification"
    "Please select a valid qualification"

/-- Errors of the optional `coverLetter` chain: skipped when the field
is missing, otherwise the trimmed value must be at most 2000 characters. -/
def careerCoverLetterErrors : Option String → List FieldError
  | none => []
  | some s =>
    condErr (!decide (strLen (jsTrim s) ≤ 2000)) "coverLetter"
      "Cover letter must not exceed 2000 characters"

/-- Errors of the `consent` chain: `notEmpty` on the raw value. -/
def careerConsentErrors (v : Option String) : List FieldError :=
  condErr (strEmpty (fieldValue v)) "consent"
    "You must agree to the terms and conditions"

/-- The career validation chain `validateCareerApplication`
(routes/careerRoutes.js): all checks accumulate; `trim` rewrites
fullName, email, phone, location and coverLetter, and `normalizeEmail`
rewrites the email. -/
def runCareerValidation (b : CareerBody) : List FieldError × CareerBody :=
  let fn := jsTrim (fieldValue b.fullName)
  let em := jsTrim (fieldValue b.email)
  let ph := jsTrim (fieldValue b.phone)
  let lo := jsTrim (fieldValue b.location)
  (careerFullNameErrors fn ++ careerEmailErrors em ++ careerPhoneErrors ph ++
     careerLocationErrors lo ++ careerPositionErrors (fieldValue b.position) ++
     careerExperienceErrors (fieldValue b.experience) ++
     careerQualificationErrors (fieldValue b.qualification) ++
     careerCoverLetterErrors b.coverLetter ++ careerConsentErrors b.consent,
   { fullName := some fn, email := some (normalizeEmailModel em),
     phone := some ph, location := some lo, position := b.position,
     experience := b.experience, qualification := b.qualification,
     coverLetter := b.coverLetter.map jsTrim, consent := b.consent })

/-- One required-field check of
CareerService.validateApplicationData: the field is missing, falsy or
blank after trimming. -/
def svcRequired (v : Option String) (msg : String) : List String :=
  condMsg (jsFalsyStr v || strEmpty (jsTrim (fieldValue v))) msg

/-- CareerService.validateApplicationData: required fields, email and
phone shapes, and a truthiness check of the consent value. -/
def validateApplicationData (b : CareerBody) : List String :=
  svcRequired b.fullName "full name is required" ++
  svcRequired b.email "email is required" ++
  svcRequired b.phone "phone is required" ++
  svcRequired b.location "location is required" ++
  svcRequired b.position "position is required" ++
  svcRequired b.experience "experience is required" ++
  svcRequired b.qualification "qualification is required" ++
  condMsg (!jsFalsyStr b.email && !emailShape (fieldValue b.email))
    "Please provide a valid email address" ++
  condMsg (!jsFalsyStr b.phone && !servicePhonePattern (fieldValue b.phone))
    "Please provide a valid phone number" ++
  condMsg (jsFalsyStr b.consent) "You must agree to the terms and conditions"

/-- An uploaded resume as multer presents it in memory. -/
structure ResumeFile where
  originalname : String
  mimetype : String
  size : Nat
deriving DecidableEq, Repr

/-- The mime types the career route accepts for resumes. -/
def allowedMimeTypes : List String :=
  ["application/pdf", "application/msword",
   "application/vnd.openxmlformats-officedocument.wordprocessingml.document"]

/-- The 5 MiB resume size ceiling. -/
def maxResumeSize : Nat := 5 * 1024 * 1024

/-- Does an attached file (if any) pass the multer gate of the career
route (allowed mime type and size within the ceiling)? -/
def multerOk : Option ResumeFile → Bool
  | none => true
  | some file => allowedMimeTypes.contains file.mimetype && file.size ≤ maxResumeSize

/-- Row payload CareerService.createApplication sends to the
Career_Applications table. -/
structure CareerInsert where
  full_name : String
  email : String
  phone : String
  location : String
  position : String
  experience : String
  qualification : String
  cover_letter : Option String
  resume_url : Option String
  resume_file_name : Option String
  consent_given : Bool
  application_status : String
  application_date : String
deriving DecidableEq, Repr

/-- The columns of the inserted row that the service reads back from
the backend's echo. -/
structure CareerRow where
  id : Nat
  application_date : String
  full_name : String
  email : String
  position : String
  application_status : String
deriving DecidableEq, Repr

/-- Result of awaiting the direct supabase insert: the promise either
throws (`thrown`) or resolves to a result object carrying `data` and
`error` fields (`ret`). -/
inductive DirectInsertOutcome where
  | thrown (msg : String)
  | ret (row : Option CareerRow) (error : Option String)
deriving DecidableEq, Repr

/-- The object CareerService.createApplication returns on success. -/
structure CareerReturn where
  id : Nat
  applicationNumber : String
  submittedAt : String
  fullName : String
  email : String
  position : String
  status : String
deriving DecidableEq, Repr

/-- Observable result of CareerService.createApplication: the returned
object or thrown message, the payload handed to the privileged
procedure (`none` when the procedure was never invoked), whether a file
reached storage, and the row actually written to the table. -/
structure CreateAppResult where
  result : Except String CareerReturn
  rpcPayload : Option CareerInsert
  fileStored : Bool
  persisted : Option CareerInsert
deriving Repr

/-- Is an `Except` a success? -/
def exceptOk : Except String CareerReturn → Bool
  | .ok _ => true
  | .error _ => false

/-- Insert payload built by CareerService.createApplication: trimmed
fields, lower-cased trimmed email, optional trimmed cover letter,
resume url and original filename when a file was uploaded, and
`consent_given` true exactly when the submitted consent value is the
string checkbox value `on` (the `consent === true` alternative cannot
occur for multipart string fields). -/
def mkCareerInsert (b : CareerBody) (resume : Option (String × String))
    (now : String) : CareerInsert :=
  { full_name := jsTrim (fieldValue b.fullName),
    email := jsTrim (jsToLower (fieldValue b.email)),
    phone := jsTrim (fieldValue b.phone),
    location := jsTrim (fieldValue b.location),
    position := fieldValue b.position,
    experience := fieldValue b.experience,
    qualification := fieldValue b.qualification,
    cover_letter :=
      if jsFalsyStr b.coverLetter then none
      else some (jsTrim (fieldValue b.coverLetter)),
    resume_url := resume.map Prod.fst,
    resume_file_name := resume.map Prod.snd,
    consent_given := b.consent == some "on",
    application_status := "pending",
    application_date := now }

/-- Response object assembled from the echoed row, with the derived
application number `AC-` followed by the zero-padded id. -/
def mkCareerReturn (row : CareerRow) : CareerReturn :=
  { id := row.id,
    applicationNumber := "AC-" ++ jsPadStart6 row.id,
    submittedAt := row.application_date,
    fullName := row.full_name,
    email := row.email,
    position := row.position,
    status := row.application_status }

/-- The insert step of CareerService.createApplication: the direct
insert result is consulted first; only a thrown direct call reaches the
`insert_career_application` fallback (with the record as its single
payload); an error carried in the returned result object is rethrown
without any fallback.  A returned object with `error` null means the
row was written even when the null `data` then makes the JS code throw
a TypeError while reading `data.id`. -/
def insertStep (b : CareerBody) (resume : Option (String × String))
    (direct : DirectInsertOutcome) (rpc : DbResult CareerRow) (now : String)
    (stored : Bool) : CreateAppResult :=
  let insertData := mkCareerInsert b resume now
  match direct with
  | .thrown _ =>
    match rpc with
    | .err m =>
      { result := .error ("Database insertion failed: " ++ m),
        rpcPayload := some insertData, fileStored := stored, persisted := none }
    | .ok row =>
      { result := .ok (mkCareerReturn row), rpcPayload := some insertData,
        fileStored := stored, persisted := some insertData }
  | .ret _ (some e) =>
    { result := .error ("Database insertion failed: " ++ e),
      rpcPayload := none, fileStored := stored, persisted := none }
  | .ret (some row) none =>
    { result := .ok (mkCareerReturn row), rpcPayload := none,
      fileStored := stored, persisted := some insertData }
  | .ret none none =>
    { result := .error "TypeError: Cannot read properties of null",
      rpcPayload := none, fileStored := stored, persisted := some insertData }

/-- CareerService.createApplication: the resume (when present) is
uploaded to storage first — a storage failure aborts before any insert —
then the insert step runs. -/
def createApplication (b : CareerBody) (f : Option ResumeFile)
    (storage : DbResult String) (direct : DirectInsertOutcome)
    (rpc : DbResult CareerRow) (now : String) : CreateAppResult :=
  match f with
  | some file =>
    match storage with
    | .err m =>
      { result := .error ("File upload failed: " ++ m), rpcPayload := none,
        fileStored := false, persisted := none }
    | .ok url => insertStep b (some (url, file.originalname)) direct rpc now true
  | none => insertStep b none direct rpc now false

/-- Success payload of the 201 career response. -/
structure CareerSuccessData where
  applicationNumber : String
  id : Nat
  submittedAt : String
  position : String
  status : String
deriving DecidableEq, Repr

/-- Observable outcome of one `POST /api/careers/apply` request. -/
structure CareerOutcome where
  status : Nat
  success : Bool
  fieldErrors : List FieldError
  messages : List String
  data : Option CareerSuccessData
  rpcPayload : Option CareerInsert
  fileStored : Bool
  persisted : Option CareerInsert
deriving DecidableEq, Repr

/-- A career outcome with no success data and no effects. -/
def careerFailure (status : Nat) (fieldErrors : List FieldError)
    (messages : List String) : CareerOutcome :=
  { status := status, success := false, fieldErrors := fieldErrors,
    messages := messages, data := none, rpcPayload := none,
    fileStored := false, persisted := none }

/-- CareerController.submitApplication: express-validator errors give
400 with field entries; service-validation errors give 400 with message
strings; a missing resume and the redundant type and size re-checks
give 400; then createApplication runs, a success gives 201 and an error
maps to 503 when its message mentions Database or upload, else 500. -/
def careerController (b : CareerBody) (f : Option ResumeFile)
    (storage : DbResult String) (direct : DirectInsertOutcome)
    (rpc : DbResult CareerRow) (now : String) : CareerOutcome :=
  let v := runCareerValidation b
  if v.1 ≠ [] then careerFailure 400 v.1 []
  else
    let b' := v.2
    let svc := validateApplicationData b'
    if svc ≠ [] then careerFailure 400 [] svc
    else
      match f with
      | none =>
        careerFailure 400 [] ["Please upload your resume (PDF, DOC, or DOCX format)"]
      | some file =>
        if !allowedMimeTypes.contains file.mimetype then
          careerFailure 400 [] ["Please upload a PDF, DOC, or DOCX file"]
        else if maxResumeSize < file.size then
          careerFailure 400 [] ["Resume file must be less than 5MB"]
        else
          let r := createApplication b' (some file) storage direct rpc now
          match r.result with
          | .ok ret =>
            { status := 201, success := true, fieldErrors := [], messages := [],
              data := some { applicationNumber := ret.applicationNumber,
                             id := ret.id, submittedAt := ret.submittedAt,
                             position := ret.position, status := ret.status },
              rpcPayload := r.rpcPayload, fileStored := r.fileStored,
              persisted := r.persisted }
          | .error m =>
            { status := if hasSubstr m "Database" || hasSubstr m "upload"
                        then 503 else 500,
              success := false, fieldErrors := [], messages := [], data := none,
              rpcPayload := r.rpcPayload, fileStored := r.fileStored,
              persisted := r.persisted }

/-- The full career route: the multer gate (fileFilter mime check and
the 5 MiB limit, answered by the router's multer error handler) runs
during upload parsing; then the `sanitizeCareerInput` middleware
rewrites the body, and validation and the controller follow. -/
def careerPipeline (b : CareerBody) (f : Option ResumeFile)
    (storage : DbResult String) (direct : DirectInsertOutcome)
    (rpc : DbResult CareerRow) (now : String) : CareerOutcome :=
  match f with
  | some file =>
    if !allowedMimeTypes.contains file.mimetype then
      careerFailure 400 [] ["Please upload a PDF, DOC, or DOCX file"]
    else if maxResumeSize < file.size then
      careerFailure 400 [] ["Resume file must be less than 5MB"]
    else careerController (sanitizeCareerBody b) (some file) storage direct rpc now
  | none => careerController (sanitizeCareerBody b) none storage direct rpc now

/-! ## Rate limiter, pagination, positions and health check -/

/-- Configuration of one express-rate-limit instance as set in the
source: window length in milliseconds, request ceiling, and the
constant retry-after value (seconds) placed in the rejection body. -/
structure RateConfig where
  windowMs : Nat
  maxHits : Nat
  retryAfterSecs : Nat
deriving DecidableEq, Repr

/-- Contact-flow limiter (middleware validation module): 15-minute
window, ceiling 3, rejection body retryAfter 900. -/
def contactRateConfig : RateConfig := ⟨15 * 60 * 1000, 3, 900⟩

/-- Career-flow limiter (routes/careerRoutes.js): 1-hour window,
ceiling 3, rejection handler retryAfter 3600. -/
def careerRateConfig : RateConfig := ⟨60 * 60 * 1000, 3, 3600⟩

/-- One client's counter: hits in the current window and the window's
reset time (milliseconds). -/
structure RateState where
  count : Nat
  reset : Nat
deriving DecidableEq, Repr

/-- What the limiter answers for one request: admission, the rejection
status (429) and the retry-after seconds placed in the rejection
body. -/
structure RateDecision where
  admitted : Bool
  status : Option Nat
  retryAfter : Option Nat
deriving DecidableEq, Repr

/-- Model of the express-rate-limit fixed-window counter for one
client, configured by the source: the first hit — or a hit at or after
the reset time — starts a fresh window of `windowMs` with count 1;
earlier hits increment the count; the request is admitted while the
count stays within the ceiling and otherwise rejected with 429 and the
configured constant retry-after.  The limiter runs before sanitization
and validation, so the decision never depends on body content. -/
def rateStep (cfg : RateConfig) (st : Option RateState) (now : Nat) :
    RateDecision × RateState :=
  let st' : RateState :=
    match st with
    | none => ⟨1, now + cfg.windowMs⟩
    | some s =>
      if s.reset ≤ now then ⟨1, now + cfg.windowMs⟩
      else ⟨s.count + 1, s.reset⟩
  if st'.count ≤ cfg.maxHits then (⟨true, none, none⟩, st')
  else (⟨false, some 429, some cfg.retryAfterSecs⟩, st')

/-- Consecutive requests of one client: final state and the number
admitted. -/
def rateRun (cfg : RateConfig) (st : Option RateState) :
    List Nat → Option RateState × Nat
  | [] => (st, 0)
  | t :: ts =>
    let step := rateStep cfg st t
    let rest := rateRun cfg (some step.2) ts
    (rest.1, (if step.1.admitted then 1 else 0) + rest.2)

/-- Options of an admin list call. -/
structure ListOptions where
  page : Nat
  limit : Nat
  sortBy : String
  sortAsc : Bool
deriving DecidableEq, Repr

/-- The single range query a list operation issues against the
backend. -/
structure RangeQuery where
  table : String
  rangeStart : Nat
  rangeEnd : Nat
  sortBy : String
  ascending : Bool
  countRequested : Bool
deriving DecidableEq, Repr

/-- The pagination object of the list response. -/
structure PageInfo where
  page : Nat
  limit : Nat
  total : Option Nat
  totalPages : Nat
deriving DecidableEq, Repr

/-- JS `Math.ceil(count / limit)` where `count` may be null: null
coerces to 0 so the result is 0; a numeric count yields the usual
ceiling. -/
def jsCeilDivNullable (count : Option Nat) (limit : Nat) : Nat :=
  match count with
  | none => 0
  | some c => (c + limit - 1) / limit

/-- CareerService.getAllApplications: one range query with zero-based
offset `(page-1)*limit`, inclusive end `offset+limit-1`, ordered by the
requested column and direction; the select requests no count, so the
response count is null and the derived totalPages is
`Math.ceil(null/limit)`. -/
def careerGetAll (tableRows : Nat) (opts : ListOptions) :
    RangeQuery × PageInfo :=
  let offset := (opts.page - 1) * opts.limit
  let q : RangeQuery :=
    { table := "Career_Applications", rangeStart := offset,
      rangeEnd := offset + opts.limit - 1, sortBy := opts.sortBy,
      ascending := opts.sortAsc, countRequested := false }
  let count : Option Nat := if q.countRequested then some tableRows else none
  (q, { page := opts.page, limit := opts.limit, total := count,
        totalPages := jsCeilDivNullable count opts.limit })

/-- ContactService.getAllContacts: identical shape against the
Contact_Us table. -/
def contactGetAll (tableRows : Nat) (opts : ListOptions) :
    RangeQuery × PageInfo :=
  let offset := (opts.page - 1) * opts.limit
  let q : RangeQuery :=
    { table := "Contact_Us", rangeStart := offset,
      rangeEnd := offset + opts.limit - 1, sortBy := opts.sortBy,
      ascending := opts.sortAsc, countRequested := false }
  let count : Option Nat := if q.countRequested then some tableRows else none
  (q, { page := opts.page, limit := opts.limit, total := count,
        totalPages := jsCeilDivNullable count opts.limit })

/-- Shape of the health-check response the claims observe: HTTP status,
envelope success flag, data.status, and the two service indicators
(absent in the catch branch, whose body has no services object). -/
structure HealthOutcome where
  status : Nat
  success : Bool
  dataStatus : String
  database : Option String
  api : Option String
deriving DecidableEq, Repr

/-- ContactController.healthCheck: the reachability probe either
resolves to a boolean or throws.  A resolved probe always answers with
success true — 200/healthy when the backend answered, 503/degraded with
services database "down" and api "up" when it did not; only a thrown
probe reaches the catch branch, which answers 503 with success false
and status "unhealthy". -/
def healthCheck (probe : Except String Bool) : HealthOutcome :=
  match probe with
  | .ok b =>
    { status := if b then 200 else 503, success := true,
      dataStatus := if b then "healthy" else "degraded",
      database := some (if b then "up" else "down"), api := some "up" }
  | .error _ =>
    { status := 503, success := false, dataStatus := "unhealthy",
      database := none, api := none }

/-! ## Helper lemmas about the validators -/

/-- Body of the C2 scenario request. -/
def c2Body : ContactBody :=
  { fullName := some "John Doe", email := some "JOHN@Example.com",
    contact := some "+14155550100",
    message := some "Hello, I have a question about your products." }

/-- C2: the request `POST /api/contact` with body
fullName "John Doe", email "JOHN@Example.com", contact "+14155550100",
message "Hello, I have a question about your products." passes both
validation layers; whenever the backend accepts the insert the response
is 201 with data carrying the id, submittedAt and derived reference,
and the email column written for the row is the lower-cased trimmed
"john@example.com". -/
theorem contact_C2_scenario (id ts now : String) :
    contactPipeline c2Body (.ok ⟨id, some ts⟩) now =
      { status := 201, success := true, fieldErrors := [], serviceErrors := [],
        data := some { id := id, submittedAt := ts,
                       reference := "AF-" ++ jsToUpper (jsSliceLast8 id) },
        inserted := some { Full_Name := "John Doe",
                           Email_id := "john@example.com",
                           Contact := "+14155550100",
                           Enter_Message :=
                             "Hello, I have a question about your products." } } := by
  rfl

/-! ## Claim C3: the stated field rules do not guarantee acceptance -/

/-- Resume reference that reaches the insert payload: the storage url
and the original filename, present only when a file was uploaded
successfully. -/
def resumeInfo (f : Option ResumeFile) (storage : DbResult String) :
    Option (String × String) :=
  match f, storage with
  | some file, .ok url => some (url, file.originalname)
  | _, _ => none

/-- The error message PostgREST produces for a row-level-security
denial of the insert. -/
def rlsDenialMsg : String :=
  "new row violates row-level security policy for table Career_Applications"

/-- Career body with every field valid and the checkbox consent
value. -/
def c1Body : CareerBody :=
  { fullName := some "John Doe", email := some "john@example.com",
    phone := some "+1234567890", location := some "Mumbai",
    position := some "other", experience := some "2-3",
    qualification := some "mba", coverLetter := none, consent := some "on" }

/-- Row the backend would echo for the C1 insert. -/
def c1Row : CareerRow :=
  { id := 7, application_date := "2026-01-01T00:00:00.000Z",
    full_name := "John Doe", email := "john@example.com",
    position := "other", application_status := "pending" }

/-- C1 counterexample: when the direct insert is rejected through an
error carried in the returned result object — the message being exactly
a row-level-security denial — the gateway never invokes the privileged
procedure (rpcPayload stays none) and raises a persistence error even
though the fallback path was never tried (here it would have
succeeded).  The fallback only runs when the direct call throws. -/
theorem career_C1_counterexample :
    hasSubstr rlsDenialMsg "row-level security" = true ∧
    (createApplication c1Body none (.ok "u") (.ret none (some rlsDenialMsg))
        (.ok c1Row) "t").rpcPayload = none ∧
    (createApplication c1Body none (.ok "u") (.ret none (some rlsDenialMsg))
        (.ok c1Row) "t").result =
      .error ("Database insertion failed: " ++ rlsDenialMsg) := by
  exact ⟨rfl, rfl, rfl⟩

/-- Fallback behaviour of the insert step: the procedure is invoked
with the record as its single payload exactly when the direct call
threw, in which case the overall result succeeds iff the procedure
succeeds; an error returned in the direct result object is rethrown
with no fallback. -/
theorem insertStep_fallback (b : CareerBody) (resume : Option (String × String))
    (direct : DirectInsertOutcome) (rpc : DbResult CareerRow) (now : String)
    (stored : Bool) :
    ((∃ e, direct = .thrown e) →
      (insertStep b resume direct rpc now stored).rpcPayload =
          some (mkCareerInsert b resume now) ∧
      (exceptOk (insertStep b resume direct rpc now stored).result = true ↔
        ∃ r, rpc = .ok r)) ∧
    (∀ r? er, direct = .ret r? (some er) →
      (insertStep b resume direct rpc now stored).rpcPayload = none ∧
      (insertStep b resume direct rpc now stored).result =
        .error ("Database insertion failed: " ++ er)) ∧
    ((insertStep b resume direct rpc now stored).rpcPayload.isSome = true →
      ∃ e, direct = .thrown e) := by
  refine ⟨?_, ?_, ?_⟩
  · rintro ⟨e, rfl⟩
    rcases rpc with r | m
    · exact ⟨rfl, by simp [insertStep, exceptOk]⟩
    · exact ⟨rfl, by simp [insertStep, exceptOk]⟩
  · rintro r? er rfl
    rcases r? with _ | r
    · exact ⟨rfl, rfl⟩
    · exact ⟨rfl, rfl⟩
  · intro hp
    rcases direct with e | ⟨r?, e?⟩
    · exact ⟨e, rfl⟩
    · exfalso
      rcases e? with _ | e2 <;> rcases r? with _ | r <;>
        simp [insertStep] at hp

/-- C1 amended: provided the upload step does not abort (no file, or
storage accepted it), the gateway invokes insert_career_application —
with the record as a single structured payload — exactly when the
direct insert call throws, and in that event a persistence error is
raised only when the procedure also fails; a rejection delivered as an
error in the direct call's result object (the shape in which
row-level-security denials are reported) is raised as a persistence
error immediately, without invoking the procedure. -/
theorem career_C1_amended (b : CareerBody) (f : Option ResumeFile)
    (storage : DbResult String) (direct : DirectInsertOutcome)
    (rpc : DbResult CareerRow) (now : String)
    (h : f = none ∨ ∃ u, storage = .ok u) :
    ((∃ e, direct = .thrown e) →
      (createApplication b f storage direct rpc now).rpcPayload =
          some (mkCareerInsert b (resumeInfo f storage) now) ∧
      (exceptOk (createApplication b f storage direct rpc now).result = true ↔
        ∃ r, rpc = .ok r)) ∧
    (∀ r? er, direct = .ret r? (some er) →
      (createApplication b f storage direct rpc now).rpcPayload = none ∧
      (createApplication b f storage direct rpc now).result =
        .error ("Database insertion failed: " ++ er)) ∧
    ((createApplication b f storage direct rpc now).rpcPayload.isSome = true →
      ∃ e, direct = .thrown e) := by
  rcases h with rfl | ⟨u, rfl⟩
  · exact insertStep_fallback b none direct rpc now false
  · rcases f with _ | file
    · exact insertStep_fallback b none direct rpc now false
    · exact insertStep_fallback b (some (u, file.originalname)) direct rpc now true

/-- Witness instantiating the amended C1 theorem at a concrete thrown
direct insert whose fallback succeeds. -/
theorem career_C1_amended_witness :
    ((∃ e, DirectInsertOutcome.thrown "fetch failed" =
        DirectInsertOutcome.thrown e) →
      (createApplication c1Body none (.ok "u") (.thrown "fetch failed")
          (.ok c1Row) "t").rpcPayload =
          some (mkCareerInsert c1Body
            (resumeInfo none (.ok "u")) "t") ∧
      (exceptOk (createApplication c1Body none (.ok "u") (.thrown "fetch failed")
          (.ok c1Row) "t").result = true ↔
        ∃ r, (DbResult.ok c1Row : DbResult CareerRow) = .ok r)) ∧
    (∀ r? er, DirectInsertOutcome.thrown "fetch failed" =
        DirectInsertOutcome.ret r? (some er) →
      (createApplication c1Body none (.ok "u") (.thrown "fetch failed")
          (.ok c1Row) "t").rpcPayload = none ∧
      (createApplication c1Body none (.ok "u") (.thrown "fetch failed")
          (.ok c1Row) "t").result =
        .error ("Database insertion failed: " ++ er)) ∧
    ((createApplication c1Body none (.ok "u") (.thrown "fetch failed")
        (.ok c1Row) "t").rpcPayload.isSome = true →
      ∃ e, DirectInsertOutcome.thrown "fetch failed" =
        DirectInsertOutcome.thrown e) :=
  career_C1_amended c1Body none (.ok "u") (.thrown "fetch failed") (.ok c1Row)
    "t" (Or.inl rfl)

/-! ## Claim C6: the sanitizers -/

/-- C6 counterexample: the career-flow sanitizer leaves an
`<iframe>…</iframe>` construct completely intact (it has no iframe
rule), contradicting the claim that every string field of either flow
has iframe tags removed. -/
theorem sanitizer_C6_counterexample :
    sanitizeCareerField "<iframe>alert(1)</iframe>" = "<iframe>alert(1)</iframe>" ∧
    "<iframe>alert(1)</iframe>" ≠ "" := by
  exact ⟨rfl, by decide⟩

/-- C6 amended: both sanitizers remove `<script>…</script>` blocks
case-insensitively, strip `javascript:` prefixes and strip `on<word>=`
handler patterns; `<iframe>…</iframe>` removal applies to the contact
flow only, while the career sanitizer passes iframe constructs through
unchanged. -/
theorem sanitizer_C6_amended :
    sanitizeContactField "<script>alert(1)</script>" = "" ∧
    sanitizeCareerField "<script>alert(1)</script>" = "" ∧
    sanitizeContactField "javascript:alert(1)" = "alert(1)" ∧
    sanitizeCareerField "javascript:alert(1)" = "alert(1)" ∧
    sanitizeContactField "<iframe>alert(1)</iframe>" = "" ∧
    sanitizeContactField "a<ScRiPt src=x>bad</sCrIpT>b" = "ab" ∧
    sanitizeCareerField "hi JaVaScRiPt:x onclick = y" = "hi x  y" ∧
    sanitizeCareerField "<iframe>alert(1)</iframe>" = "<iframe>alert(1)</iframe>" ∧
    sanitizeContactField "plain text stays" = "plain text stays" := by
  exact ⟨rfl, rfl, rfl, rfl, rfl, rfl, rfl, rfl, rfl⟩

/-! ## Claims C4 and C5: the career submission flow -/

/-- Career body with every field valid except that `consent` is
missing. -/
def c4Body : CareerBody :=
  { fullName := some "John Doe", email := some "john@example.com",
    phone := some "+1234567890", location := some "Mumbai",
    position := some "other", experience := some "2-3",
    qualification := some "mba", coverLetter := none, consent := none }

/-- C4 counterexample: a request with the consent field missing and a
`text/plain` file attached is answered 400 by the multer file gate with
only the file-type message — the response carries no error entry for
the consent field, contradicting the claim that every consent-missing
request gets a consent error entry.  No row is inserted and no file is
stored. -/
theorem career_C4_counterexample :
    careerPipeline c4Body (some ⟨"cv.txt", "text/plain", 1000⟩)
        (.ok "u") (.ret none none) (.err "e") "t" =
      { status := 400, success := false, fieldErrors := [],
        messages := ["Please upload a PDF, DOC, or DOCX file"],
        data := none, rpcPayload := none, fileStored := false,
        persisted := none } := by
  rfl

/-- C4 amended: every request with the consent field missing is
answered 400 with no row inserted, no file stored and no success data;
whenever the attached file (if any) passes the multer gate, the
response's validation errors include the consent entry. -/
theorem career_C4_amended (b : CareerBody) (f : Option ResumeFile)
    (storage : DbResult String) (direct : DirectInsertOutcome)
    (rpc : DbResult CareerRow) (now : String) (hc : b.consent = none) :
    (careerPipeline b f storage direct rpc now).status = 400 ∧
    (careerPipeline b f storage direct rpc now).persisted = none ∧
    (careerPipeline b f storage direct rpc now).fileStored = false ∧
    (careerPipeline b f storage direct rpc now).data = none ∧
    (multerOk f = true →
      FieldError.mk "consent" "You must agree to the terms and conditions" ∈
        (careerPipeline b f storage direct rpc now).fieldErrors) := by
  have hcs : (sanitizeCareerBody b).consent = none := by
    simp [sanitizeCareerBody, hc]
  have hmem : FieldError.mk "consent" "You must agree to the terms and conditions" ∈
      (runCareerValidation (sanitizeCareerBody b)).1 := by
    simp [runCareerValidation, careerConsentErrors, condErr, hcs, fieldValue, strEmpty]
  have hne : (runCareerValidation (sanitizeCareerBody b)).1 ≠ [] := by
    intro h0
    rw [h0] at hmem
    simp at hmem
  cases f with
  | none =>
    simp [careerPipeline, careerController, hne, careerFailure, multerOk, hmem]
  | some file =>
    by_cases hm : file.mimetype ∈ allowedMimeTypes
    · by_cases hs : maxResumeSize < file.size
      · simp [careerPipeline, careerController, hne, careerFailure, multerOk,
          hm, hs, hmem]
      · simp [careerPipeline, careerController, hne, careerFailure, multerOk,
          hm, hs, hmem]
    · simp [careerPipeline, careerController, hne, careerFailure, multerOk,
        hm, hmem]

/-- Witness instantiating the amended C4 theorem at the concrete
consent-missing request with no file. -/
theorem career_C4_amended_witness :
    (careerPipeline c4Body none (.ok "u") (.ret none none) (.err "e") "t").status
        = 400 ∧
    (careerPipeline c4Body none (.ok "u") (.ret none none) (.err "e") "t").persisted
        = none ∧
    (careerPipeline c4Body none (.ok "u") (.ret none none) (.err "e") "t").fileStored
        = false ∧
    (careerPipeline c4Body none (.ok "u") (.ret none none) (.err "e") "t").data
        = none ∧
    (multerOk none = true →
      FieldError.mk "consent" "You must agree to the terms and conditions" ∈
        (careerPipeline c4Body none (.ok "u") (.ret none none) (.err "e")
          "t").fieldErrors) :=
  career_C4_amended c4Body none (.ok "u") (.ret none none) (.err "e") "t" rfl

/-- Career body identical to the valid one except that consent carries
the string "true", which is non-empty (passing the route check) and
truthy (passing the service check) but is not the checkbox value "on". -/
def c5Body : CareerBody :=
  { fullName := some "John Doe", email := some "john@example.com",
    phone := some "+1234567890", location := some "Mumbai",
    position := some "other", experience := some "2-3",
    qualification := some "mba", coverLetter := none, consent := some "true" }

/-- Row the backend echoes for the C5 insert. -/
def c5Row : CareerRow :=
  { id := 1, application_date := "2026-01-01T00:00:00.000Z",
    full_name := "John Doe", email := "john@example.com",
    position := "other", application_status := "pending" }

/-- C5 counterexample: the submission with consent "true" passes both
validation layers, is accepted with 201, and writes a row whose
consent_given column is false — a persisted career application whose
consent flag is not true. -/
theorem career_C5_counterexample :
    ((careerPipeline c5Body (some ⟨"cv.pdf", "application/pdf", 1000⟩)
        (.ok "https://cdn/cv.pdf") (.ret (some c5Row) none) (.err "unused")
        "2026-01-01T00:00:00.000Z").persisted.map (fun r => r.consent_given))
      = some false ∧
    (careerPipeline c5Body (some ⟨"cv.pdf", "application/pdf", 1000⟩)
        (.ok "https://cdn/cv.pdf") (.ret (some c5Row) none) (.err "unused")
        "2026-01-01T00:00:00.000Z").status = 201 := by
  exact ⟨rfl, rfl⟩

/-- Persisted rows of the insert step always carry
`consent_given = (consent = "on")`. -/
theorem insertStep_consent (b : CareerBody) (resume : Option (String × String))
    (direct : DirectInsertOutcome) (rpc : DbResult CareerRow) (now : String)
    (stored : Bool) (row : CareerInsert)
    (h : (insertStep b resume direct rpc now stored).persisted = some row) :
    row.consent_given = (b.consent == some "on") := by
  rcases direct with e | ⟨r?, e?⟩
  · rcases rpc with r | m
    · simp only [insertStep, Option.some.injEq] at h
      rw [← h]
      rfl
    · simp [insertStep] at h
  · rcases e? with _ | e2
    · rcases r? with _ | r
      · simp only [insertStep, Option.some.injEq] at h
        rw [← h]
        rfl
      · simp only [insertStep, Option.some.injEq] at h
        rw [← h]
        rfl
    · simp [insertStep] at h

/-- Persisted rows of createApplication always carry
`consent_given = (consent = "on")`. -/
theorem createApplication_consent (b : CareerBody) (f : Option ResumeFile)
    (storage : DbResult String) (direct : DirectInsertOutcome)
    (rpc : DbResult CareerRow) (now : String) (row : CareerInsert)
    (h : (createApplication b f storage direct rpc now).persisted = some row) :
    row.consent_given = (b.consent == some "on") := by
  rcases f with _ | file
  · exact insertStep_consent b none direct rpc now false row h
  · rcases storage with u | m
    · exact insertStep_consent b (some (u, file.originalname)) direct rpc now
        true row h
    · simp [createApplication] at h

/-- Persisted rows of the controller always carry
`consent_given = (consent = "on")` (the validation chain leaves the
consent value untouched). -/
theorem careerController_consent (b : CareerBody) (f : Option ResumeFile)
    (storage : DbResult String) (direct : DirectInsertOutcome)
    (rpc : DbResult CareerRow) (now : String) (row : CareerInsert)
    (h : (careerController b f storage direct rpc now).persisted = some row) :
    row.consent_given = (b.consent == some "on") := by
  have hbc : (runCareerValidation b).2.consent = b.consent := rfl
  rcases f with _ | file
  · simp only [careerController] at h
    split at h
    · simp [careerFailure] at h
    · split at h
      · simp [careerFailure] at h
      · simp [careerFailure] at h
  · simp only [careerController] at h
    split at h
    · simp [careerFailure] at h
    · split at h
      · simp [careerFailure] at h
      · split at h
        · simp [careerFailure] at h
        · split at h
          · simp [careerFailure] at h
          · split at h <;>
              · rw [← hbc]
                exact createApplication_consent _ (some file) storage direct rpc
                  now row h

/-- C5 amended: whenever the career pipeline persists a row, that row's
consent_given column equals the test "consent value after route
sanitization is the checkbox string on"; any other non-empty consent
value passes validation yet is stored with consent_given false (for
example the string "true"), while a value the sanitizer rewrites to
"on" (such as "javascript:on") is stored with consent_given true. -/
theorem career_C5_amended (b : CareerBody) (f : Option ResumeFile)
    (storage : DbResult String) (direct : DirectInsertOutcome)
    (rpc : DbResult CareerRow) (now : String) (row : CareerInsert)
    (h : (careerPipeline b f storage direct rpc now).persisted = some row) :
    row.consent_given = (b.consent.map sanitizeCareerField == some "on") := by
  have hsc : (sanitizeCareerBody b).consent = b.consent.map sanitizeCareerField :=
    rfl
  rcases f with _ | file
  · have hcc := careerController_consent (sanitizeCareerBody b) none storage
      direct rpc now row h
    rw [hsc] at hcc
    exact hcc
  · simp only [careerPipeline] at h
    split at h
    · simp [careerFailure] at h
    · split at h
      · simp [careerFailure] at h
      · have hcc := careerController_consent (sanitizeCareerBody b) (some file)
          storage direct rpc now row h
        rw [hsc] at hcc
        exact hcc

/-- Career body identical to the C5 one except that consent carries
"javascript:on", which the career sanitizer rewrites to "on". -/
def c5BodyJs : CareerBody :=
  { fullName := some "John Doe", email := some "john@example.com",
    phone := some "+1234567890", location := some "Mumbai",
    position := some "other", experience := some "2-3",
    qualification := some "mba", coverLetter := none,
    consent := some "javascript:on" }

/-- Witness instantiating the amended C5 theorem at two concrete
accepted submissions: consent "true" persists a row with consent_given
false, and consent "javascript:on" — sanitized to "on" — persists a row
with consent_given true. -/
theorem career_C5_amended_witness :
    ({ full_name := "John Doe", email := "john@example.com",
       phone := "+1234567890", location := "Mumbai", position := "other",
       experience := "2-3", qualification := "mba", cover_letter := none,
       resume_url := some "https://cdn/cv.pdf",
       resume_file_name := some "cv.pdf", consent_given := false,
       application_status := "pending",
       application_date := "2026-01-01T00:00:00.000Z" : CareerInsert}).consent_given
      = (c5Body.consent.map sanitizeCareerField == some "on") ∧
    ({ full_name := "John Doe", email := "john@example.com",
       phone := "+1234567890", location := "Mumbai", position := "other",
       experience := "2-3", qualification := "mba", cover_letter := none,
       resume_url := some "https://cdn/cv.pdf",
       resume_file_name := some "cv.pdf", consent_given := true,
       application_status := "pending",
       application_date := "2026-01-01T00:00:00.000Z" : CareerInsert}).consent_given
      = (c5BodyJs.consent.map sanitizeCareerField == some "on") :=
  ⟨career_C5_amended c5Body (some ⟨"cv.pdf", "application/pdf", 1000⟩)
      (.ok "https://cdn/cv.pdf") (.ret (some c5Row) none) (.err "unused")
      "2026-01-01T00:00:00.000Z" _ rfl,
   career_C5_amended c5BodyJs (some ⟨"cv.pdf", "application/pdf", 1000⟩)
      (.ok "https://cdn/cv.pdf") (.ret (some c5Row) none) (.err "unused")
      "2026-01-01T00:00:00.000Z" _ rfl⟩

/-- Admissions against a live window never exceed what the ceiling
still allows (truncated subtraction covers the saturated case). -/
theorem rateRun_bound (cfg : RateConfig) (s : RateState) (ts : List Nat)
    (h : ∀ t ∈ ts, t < s.reset) :
    (rateRun cfg (some s) ts).2 ≤ cfg.maxHits - s.count := by
  induction ts generalizing s with
  | nil => simp [rateRun]
  | cons t ts ih =>
    have hlt : ¬ s.reset ≤ t := Nat.not_le.mpr (h t (List.mem_cons_self t ts))
    have hrest : (rateRun cfg (some ⟨s.count + 1, s.reset⟩) ts).2 ≤
        cfg.maxHits - (s.count + 1) := by
      simpa using ih ⟨s.count + 1, s.reset⟩
        fun x hx => h x (List.mem_cons_of_mem t hx)
    by_cases hcnt : s.count + 1 ≤ cfg.maxHits
    · have hstep : rateStep cfg (some s) t =
          (⟨true, none, none⟩, ⟨s.count + 1, s.reset⟩) := by
        simp [rateStep, hlt, hcnt]
      simp [rateRun, hstep]
      omega
    · have hstep : rateStep cfg (some s) t =
          (⟨false, some 429, some cfg.retryAfterSecs⟩, ⟨s.count + 1, s.reset⟩) := by
        simp [rateStep, hlt, hcnt]
      simp [rateRun, hstep]
      omega

/-- From a fresh client, at most `maxHits` requests are admitted within
the fixed window the first request opens. -/
theorem rateRun_fresh_bound (cfg : RateConfig) (t0 : Nat) (ts : List Nat)
    (h : ∀ t ∈ ts, t < t0 + cfg.windowMs) (hmax : 1 ≤ cfg.maxHits) :
    (rateRun cfg none (t0 :: ts)).2 ≤ cfg.maxHits := by
  have hstep : rateStep cfg none t0 =
      (⟨true, none, none⟩, ⟨1, t0 + cfg.windowMs⟩) := by
    simp [rateStep, hmax]
  have hrest : (rateRun cfg (some ⟨1, t0 + cfg.windowMs⟩) ts).2 ≤
      cfg.maxHits - 1 := by
    simpa using rateRun_bound cfg ⟨1, t0 + cfg.windowMs⟩ ts h
  simp [rateRun, hstep]
  omega

/-- C7 counterexample: for the contact limiter, three requests at
times 0, 1, 2 ms are admitted; a fourth at 500000 ms (ca. 8 minutes in)
is rejected with 429 whose body carries retryAfter 900 seconds, while
the remaining window time is only 400 seconds — the rejection carries
the constant full window, not the remaining time the claim states. -/
theorem rate_C7_counterexample :
    (rateRun contactRateConfig none [0, 1, 2]).1 = some ⟨3, 900000⟩ ∧
    (rateRun contactRateConfig none [0, 1, 2]).2 = 3 ∧
    (rateStep contactRateConfig (some ⟨3, 900000⟩) 500000).1 =
      ⟨false, some 429, some 900⟩ ∧
    (900000 - 500000) / 1000 = 400 ∧ (900 : Nat) ≠ 400 := by
  exact ⟨rfl, rfl, rfl, rfl, by decide⟩

/-- C7 amended: once 3 requests have been counted in the client's
current fixed window, any further request before the window's reset
time is rejected with 429 regardless of content, carrying the constant
configured retry-after (900 s contact, 3600 s career) rather than the
remaining window time; a request at or after the reset time is
admitted; and within the fixed window a fresh client opens, no more
than 3 requests are ever admitted (spans crossing a window boundary can
see up to twice the ceiling, which the original claim excluded). -/
theorem rate_C7_amended (s : RateState) (now later : Nat)
    (hc : 3 ≤ s.count) (hw : now < s.reset) (hl : s.reset ≤ later) :
    (rateStep contactRateConfig (some s) now).1 = ⟨false, some 429, some 900⟩ ∧
    (rateStep careerRateConfig (some s) now).1 = ⟨false, some 429, some 3600⟩ ∧
    ((rateStep contactRateConfig (some s) later).1).admitted = true ∧
    ((rateStep careerRateConfig (some s) later).1).admitted = true ∧
    (∀ t0 ts, (∀ t ∈ ts, t < t0 + contactRateConfig.windowMs) →
      (rateRun contactRateConfig none (t0 :: ts)).2 ≤ 3) ∧
    (∀ t0 ts, (∀ t ∈ ts, t < t0 + careerRateConfig.windowMs) →
      (rateRun careerRateConfig none (t0 :: ts)).2 ≤ 3) := by
  have hnl : ¬ s.reset ≤ now := Nat.not_le.mpr hw
  have hcnt : ¬ s.count + 1 ≤ 3 := by omega
  refine ⟨by simp [rateStep, contactRateConfig, hnl, hcnt],
    by simp [rateStep, careerRateConfig, hnl, hcnt],
    by simp [rateStep, contactRateConfig, hl],
    by simp [rateStep, careerRateConfig, hl],
    fun t0 ts h => rateRun_fresh_bound contactRateConfig t0 ts h (by decide),
    fun t0 ts h => rateRun_fresh_bound careerRateConfig t0 ts h (by decide)⟩

/-- Witness instantiating the amended C7 theorem at a saturated window
and a request after its end. -/
theorem rate_C7_amended_witness :
    (rateStep contactRateConfig (some ⟨3, 900000⟩) 500000).1 =
      ⟨false, some 429, some 900⟩ ∧
    (rateStep careerRateConfig (some ⟨3, 900000⟩) 500000).1 =
      ⟨false, some 429, some 3600⟩ ∧
    ((rateStep contactRateConfig (some ⟨3, 900000⟩) 900000).1).admitted = true ∧
    ((rateStep careerRateConfig (some ⟨3, 900000⟩) 900000).1).admitted = true ∧
    (∀ t0 ts, (∀ t ∈ ts, t < t0 + contactRateConfig.windowMs) →
      (rateRun contactRateConfig none (t0 :: ts)).2 ≤ 3) ∧
    (∀ t0 ts, (∀ t ∈ ts, t < t0 + careerRateConfig.windowMs) →
      (rateRun careerRateConfig none (t0 :: ts)).2 ≤ 3) :=
  rate_C7_amended ⟨3, 900000⟩ 500000 900000 (by decide) (by decide) (by decide)

/-! ## Claim C8: pagination -/

/-- C8 counterexample: with 25 rows in the table and page 1, limit 10,
the claim expects totalPages = ceil(25/10) = 3, but both list
operations compute totalPages from the response's null count (no count
was requested), giving 0. -/
theorem pagination_C8_counterexample :
    (careerGetAll 25 ⟨1, 10, "application_date", false⟩).2.totalPages = 0 ∧
    (contactGetAll 25 ⟨1, 10, "created_at", false⟩).2.totalPages = 0 ∧
    (25 + 10 - 1) / 10 = 3 ∧ (0 : Nat) ≠ 3 := by
  exact ⟨rfl, rfl, rfl, by decide⟩

/-- C8 amended: for page at least 1 and limit 1-100, both admin list
operations request the inclusive row range starting at zero-based
offset (page-1)*limit and ending at offset+limit-1 in the requested
sort order; but no count query accompanies the request, the response
total is null and the computed totalPages is always 0 (Math.ceil of a
null count), not the ceiling of a separately counted total. -/
theorem pagination_C8_amended (rows : Nat) (opts : ListOptions)
    (_hp : 1 ≤ opts.page) (_hl : 1 ≤ opts.limit) (_hl2 : opts.limit ≤ 100) :
    (careerGetAll rows opts).1.rangeStart = (opts.page - 1) * opts.limit ∧
    (careerGetAll rows opts).1.rangeEnd =
      (opts.page - 1) * opts.limit + opts.limit - 1 ∧
    (careerGetAll rows opts).1.sortBy = opts.sortBy ∧
    (careerGetAll rows opts).1.ascending = opts.sortAsc ∧
    (careerGetAll rows opts).1.countRequested = false ∧
    (careerGetAll rows opts).2.total = none ∧
    (careerGetAll rows opts).2.totalPages = 0 ∧
    (contactGetAll rows opts).1.rangeStart = (opts.page - 1) * opts.limit ∧
    (contactGetAll rows opts).1.rangeEnd =
      (opts.page - 1) * opts.limit + opts.limit - 1 ∧
    (contactGetAll rows opts).2.total = none ∧
    (contactGetAll rows opts).2.totalPages = 0 := by
  exact ⟨rfl, rfl, rfl, rfl, rfl, rfl, rfl, rfl, rfl, rfl, rfl⟩

/-- Witness instantiating the amended C8 theorem at page 2, limit
25. -/
theorem pagination_C8_amended_witness :
    (careerGetAll 40 ⟨2, 25, "application_date", true⟩).1.rangeStart =
      (2 - 1) * 25 ∧
    (careerGetAll 40 ⟨2, 25, "application_date", true⟩).1.rangeEnd =
      (2 - 1) * 25 + 25 - 1 ∧
    (careerGetAll 40 ⟨2, 25, "application_date", true⟩).1.sortBy =
      "application_date" ∧
    (careerGetAll 40 ⟨2, 25, "application_date", true⟩).1.ascending = true ∧
    (careerGetAll 40 ⟨2, 25, "application_date", true⟩).1.countRequested = false ∧
    (careerGetAll 40 ⟨2, 25, "application_date", true⟩).2.total = none ∧
    (careerGetAll 40 ⟨2, 25, "application_date", true⟩).2.totalPages = 0 ∧
    (contactGetAll 40 ⟨2, 25, "application_date", true⟩).1.rangeStart =
      (2 - 1) * 25 ∧
    (contactGetAll 40 ⟨2, 25, "application_date", true⟩).1.rangeEnd =
      (2 - 1) * 25 + 25 - 1 ∧
    (contactGetAll 40 ⟨2, 25, "application_date", true⟩).2.total = none ∧
    (contactGetAll 40 ⟨2, 25, "application_date", true⟩).2.totalPages = 0 :=
  pagination_C8_amended 40 ⟨2, 25, "application_date", true⟩
    (by decide) (by decide) (by decide)

/-! ## Claim C9: served positions equal accepted positions -/

/-- C9: a position code is accepted by the career validator's
set-membership rule (no position error for it) exactly when it is one
of the value fields served by GET /api/careers/positions. -/
theorem positions_C9_equivalence (p : String) :
    careerPositionErrors p = [] ↔ p ∈ availablePositions.map Prod.fst := by
  rw [show availablePositions.map Prod.fst = validPositions from rfl]
  simp only [careerPositionErrors, condErr, List.append_eq_nil]
  constructor
  · rintro ⟨h1, h2⟩
    by_cases hc : validPositions.contains p
    · simpa using hc
    · simp [hc] at h2
      exact h2
  · intro hm
    have hall : ∀ q ∈ validPositions, strEmpty q = false := by decide
    exact ⟨by simp [hall p hm], by simp [hm]⟩

/-! ## Claim C10: the health check -/

/-- C10: when the reachability probe completes and reports the backend
unreachable, the response is 503 with data.status "degraded", services
database "down" and api "up", yet success is still true; and across all
probe outcomes, success is false exactly when the probe throws. -/
theorem health_C10_degraded :
    healthCheck (.ok false) =
      { status := 503, success := true, dataStatus := "degraded",
        database := some "down", api := some "up" } ∧
    (∀ p : Except String Bool,
      ((healthCheck p).success = false ↔ ∃ m, p = .error m)) := by
  refine ⟨rfl, fun p => ?_⟩
  cases p with
  | error m => simp [healthCheck]
  | ok b => simp [healthCheck]

end Africure
